import Mathlib

/-!
# Verification of the Remindiary classification / diary pipeline

Shallow embedding of `Backend/controllers/chatController.js`. The repository
contains two variants of the controller: a Gemini-backed one (regex JSON
extraction, model-assisted date resolution with a heuristic fallback) and a
Groq-backed one (whole-reply JSON parsing, chrono-node date resolution).
Both are embedded below. Strings are modelled as `List Char`; timestamps as
milliseconds since the Unix epoch (`Nat`), with local time identified with
UTC (a single fixed-offset clock). The generative backends and the
chrono-node parser are external collaborators: their replies are inputs of
the embedded functions.
-/

set_option autoImplicit false

abbrev Str := List Char

def strL (s : String) : Str := s.toList

/-- The `\x7b` character, written by escape to keep string scanning simple. -/
def lbrace : Char := '\x7b'

/-- The `\x7d` character. -/
def rbrace : Char := '\x7d'

/-! ## JSON values and a model of `JSON.parse`

`JSON.parse` is a platform primitive, modelled here by a recursive-descent
parser over `List Char`.  Numbers are modelled as integers (the pipeline's
payloads contain no fractional literals) and string escapes cover the
common single-character escapes; both are conservative subsets of the JS
grammar, and every theorem below that depends on parsing conditions on a
successful `Json.parse`, never on its completeness. -/

inductive Json where
  | null
  | bool (b : Bool)
  | num (n : Int)
  | str (s : Str)
  | arr (elems : List Json)
  | obj (fields : List (Str × Json))

/-- JSON whitespace. -/
def isJsonWs (c : Char) : Bool :=
  c == ' ' || c == '\t' || c == '\n' || c == '\r'

def skipWs (s : Str) : Str := s.dropWhile isJsonWs

/-- Single-character string escapes (`\uXXXX` is not modelled). -/
def escChar (c : Char) : Option Char :=
  if c = '"' then some '"'
  else if c = '\\' then some '\\'
  else if c = '/' then some '/'
  else if c = 'n' then some '\n'
  else if c = 't' then some '\t'
  else if c = 'r' then some '\r'
  else if c = 'b' then some '\x08'
  else if c = 'f' then some '\x0c'
  else none

/-- Parse the body of a JSON string, after the opening quote. -/
def parseStrF : Nat → Str → Option (Str × Str)
  | 0, _ => none
  | _ + 1, [] => none
  | n + 1, c :: rest =>
    if c = '"' then some ([], rest)
    else if c = '\\' then
      match rest with
      | [] => none
      | e :: rest2 =>
        match escChar e with
        | some d =>
          match parseStrF n rest2 with
          | some (cs, r) => some (d :: cs, r)
          | none => none
        | none => none
    else
      match parseStrF n rest with
      | some (cs, r) => some (c :: cs, r)
      | none => none

def digitsToNat (ds : Str) : Nat :=
  ds.foldl (fun acc c => acc * 10 + (c.toNat - '0'.toNat)) 0

/-- Parse a nonempty run of decimal digits. -/
def parseNatNum (s : Str) : Option (Nat × Str) :=
  let ds := s.takeWhile Char.isDigit
  if ds.isEmpty then none
  else some (digitsToNat ds, s.dropWhile Char.isDigit)

/-- Parser modes: a value, array elements, object members. The `Must`
modes require at least one element/member (used after a comma). -/
inductive PMode where
  | val
  | elems
  | elemMust
  | elemsTail
  | pairs
  | pairMust
  | pairsTail

inductive PRes where
  | v (j : Json)
  | l (js : List Json)
  | ps (fs : List (Str × Json))

/-- Fueled recursive-descent JSON parser.  Structural recursion on the fuel
keeps every application kernel-reducible. -/
def parseF : Nat → PMode → Str → Option (PRes × Str)
  | 0, _, _ => none
  | n + 1, PMode.val, s =>
    match skipWs s with
    | [] => none
    | c :: rest =>
      if c = lbrace then
        match parseF n PMode.pairs rest with
        | some (PRes.ps fs, r) => some (PRes.v (Json.obj fs), r)
        | _ => none
      else if c = '[' then
        match parseF n PMode.elems rest with
        | some (PRes.l js, r) => some (PRes.v (Json.arr js), r)
        | _ => none
      else if c = '"' then
        match parseStrF (rest.length + 1) rest with
        | some (cs, r) => some (PRes.v (Json.str cs), r)
        | none => none
      else if c = 't' then
        if rest.take 3 = ['r', 'u', 'e'] then some (PRes.v (Json.bool true), rest.drop 3)
        else none
      else if c = 'f' then
        if rest.take 4 = ['a', 'l', 's', 'e'] then some (PRes.v (Json.bool false), rest.drop 4)
        else none
      else if c = 'n' then
        if rest.take 3 = ['u', 'l', 'l'] then some (PRes.v Json.null, rest.drop 3)
        else none
      else if c = '-' then
        match parseNatNum rest with
        | some (m, r) => some (PRes.v (Json.num (-(m : Int))), r)
        | none => none
      else if c.isDigit then
        match parseNatNum (c :: rest) with
        | some (m, r) => some (PRes.v (Json.num (m : Int)), r)
        | none => none
      else none
  | n + 1, PMode.elems, s =>
    match skipWs s with
    | [] => none
    | c :: rest =>
      if c = ']' then some (PRes.l [], rest)
      else parseF n PMode.elemMust s
  | n + 1, PMode.elemMust, s =>
    match parseF n PMode.val s with
    | some (PRes.v v, r1) =>
      match parseF n PMode.elemsTail r1 with
      | some (PRes.l js, r2) => some (PRes.l (v :: js), r2)
      | _ => none
    | _ => none
  | n + 1, PMode.elemsTail, s =>
    match skipWs s with
    | [] => none
    | c :: rest =>
      if c = ']' then some (PRes.l [], rest)
      else if c = ',' then parseF n PMode.elemMust rest
      else none
  | n + 1, PMode.pairs, s =>
    match skipWs s with
    | [] => none
    | c :: _ =>
      if c = rbrace then some (PRes.ps [], (skipWs s).tail)
      else parseF n PMode.pairMust s
  | n + 1, PMode.pairMust, s =>
    match skipWs s with
    | '"' :: rest =>
      match parseStrF (rest.length + 1) rest with
      | some (k, r1) =>
        match skipWs r1 with
        | ':' :: r2 =>
          match parseF n PMode.val r2 with
          | some (PRes.v v, r3) =>
            match parseF n PMode.pairsTail r3 with
            | some (PRes.ps fs, r4) => some (PRes.ps ((k, v) :: fs), r4)
            | _ => none
          | _ => none
        | _ => none
      | none => none
    | _ => none
  | n + 1, PMode.pairsTail, s =>
    match skipWs s with
    | [] => none
    | c :: rest =>
      if c = rbrace then some (PRes.ps [], rest)
      else if c = ',' then parseF n PMode.pairMust rest
      else none

/-- Model of `JSON.parse`: parse one value and require only trailing
whitespace after it.  The fuel `3 * length + 10` dominates the parser's
step count (at most three mode transitions happen between consumed
characters). -/
def Json.parse (s : Str) : Option Json :=
  match parseF (3 * s.length + 10) PMode.val s with
  | some (PRes.v v, rest) => if (skipWs rest).isEmpty then some v else none
  | _ => none

/-! ## The greedy JSON-in-prose extraction

`chatController.js` (Gemini variant, lines 56-57 and 177-178):
`response.content.match(/\x7b[\s\S]*\x7d/)` followed by
`JSON.parse(jsonMatch[0])`.  The regex match spans from the first `\x7b`
to the last `\x7d` of the reply; when there is no such span, or parsing
fails, the call site throws and the surrounding `try`/`catch` turns it
into the processing-failure response — here, `none`. -/

def extractSpan (s : Str) : Option Str :=
  if (((s.dropWhile (fun c => !(c = lbrace))).reverse.dropWhile
        (fun c => !(c = rbrace))).reverse).isEmpty
  then none
  else some (((s.dropWhile (fun c => !(c = lbrace))).reverse.dropWhile
    (fun c => !(c = rbrace))).reverse)

def extractJson (s : Str) : Option Json :=
  match extractSpan s with
  | some t => Json.parse t
  | none => none

/-! ## JavaScript value helpers

Property access, truthiness and the `x || d` defaulting idiom used at the
`Entry.create` call sites.  An absent property is `Option.none`
(JS `undefined`). -/

/-- JS property access on a parsed JSON value.  On a non-object it yields
`undefined`; on an object, the last binding of the key wins (as in
`JSON.parse`). -/
def jsGet : Json → Str → Option Json
  | Json.obj fs, k => (fs.reverse.find? (fun p => p.1 == k)).map Prod.snd
  | _, _ => none

/-- JS truthiness of a defined value. -/
def jsTruthy : Json → Bool
  | Json.null => false
  | Json.bool b => b
  | Json.num n => !(n == 0)
  | Json.str s => !s.isEmpty
  | Json.arr _ => true
  | Json.obj _ => true

/-- JS truthiness of a possibly-`undefined` value, negated:
`jsFalsyOpt o = true` iff `o` is `undefined` or falsy. -/
def jsFalsyOpt : Option Json → Bool
  | none => true
  | some v => !jsTruthy v

/-- The JS `x || d` defaulting idiom applied to a property lookup. -/
def jsOr (o : Option Json) (d : Json) : Json :=
  match o with
  | some v => if jsTruthy v then v else d
  | none => d

/-- JS string interpolation of a primitive JSON value (template literals in
the diary prompts).  Non-primitive values are not exercised by the
pipeline-constructed entries and are rendered as a fixed placeholder. -/
def jsDisplay : Json → Str
  | Json.null => strL "null"
  | Json.bool b => if b then strL "true" else strL "false"
  | Json.num n => if n < 0 then '-' :: (Nat.repr n.natAbs).toList else (Nat.repr n.natAbs).toList
  | Json.str s => s
  | Json.arr _ => strL "[array]"
  | Json.obj _ => strL "[object Object]"

/-- JS string interpolation of a possibly-`undefined` value:
`${undefined}` renders as the literal text `undefined`. -/
def jsDisplayOpt : Option Json → Str
  | none => strL "undefined"
  | some v => jsDisplay v

/-- JS string interpolation of a possibly-`undefined` string (the
`extraText` request field): `${undefined}` is the text `undefined`. -/
def jsTemplateOpt : Option Str → Str
  | none => strL "undefined"
  | some s => s

/-! ## The time-of-day heuristic

`chatController.js` line 98:
`/\b(\d\x7b1,2\x7d)(:\d\x7b2\x7d)?\s?(am|pm)?\b/i.test(text)`.
The matcher below enumerates the finitely many ways the pattern can match
at a position, which coincides with `RegExp.test` (existence of a match). -/

/-- JS `\w` word characters (ASCII letters, digits, underscore). -/
def isWordChar (c : Char) : Bool := c.isAlpha || c.isDigit || c == '_'

def wordAt (s : Str) (i : Nat) : Bool :=
  match s.get? i with
  | some c => isWordChar c
  | none => false

/-- JS `\b`: exactly one side of position `i` is a word character. -/
def boundaryAt (s : Str) (i : Nat) : Bool :=
  (if i = 0 then false else wordAt s (i - 1)) != wordAt s i

def isDigitAt (s : Str) (i : Nat) : Bool :=
  match s.get? i with
  | some c => c.isDigit
  | none => false

def charIsAt (s : Str) (i : Nat) (c : Char) : Bool :=
  match s.get? i with
  | some d => d == c
  | none => false

/-- JS `\s` (common subset). -/
def isJsWsAt (s : Str) (i : Nat) : Bool :=
  match s.get? i with
  | some c => c == ' ' || c == '\t' || c == '\n' || c == '\r' || c == '\x0c' || c == '\x0b'
  | none => false

def lowerAt (s : Str) (i : Nat) : Option Char := (s.get? i).map Char.toLower

/-- Candidate lengths for the `\d\x7b1,2\x7d` group starting at `i`. -/
def digitLens (s : Str) (i : Nat) : List Nat :=
  (if isDigitAt s i && isDigitAt s (i + 1) then [2] else []) ++
  (if isDigitAt s i then [1] else [])

/-- Candidate end positions after the optional `(:\d\x7b2\x7d)?` group. -/
def colonEnds (s : Str) (j : Nat) : List Nat :=
  (if charIsAt s j ':' && isDigitAt s (j + 1) && isDigitAt s (j + 2) then [j + 3] else []) ++ [j]

/-- Candidate end positions after the optional `\s?`. -/
def wsEnds (s : Str) (j : Nat) : List Nat :=
  (if isJsWsAt s j then [j + 1] else []) ++ [j]

/-- Candidate end positions after the optional case-insensitive `(am|pm)?`. -/
def ampmEnds (s : Str) (j : Nat) : List Nat :=
  (if (lowerAt s j == some 'a' || lowerAt s j == some 'p') && lowerAt s (j + 1) == some 'm'
   then [j + 2] else []) ++ [j]

/-- The time-of-day pattern matches starting at position `i`. -/
def timeMatchAt (s : Str) (i : Nat) : Bool :=
  boundaryAt s i &&
  (digitLens s i).any (fun k =>
    (colonEnds s (i + k)).any (fun j1 =>
      (wsEnds s j1).any (fun j2 =>
        (ampmEnds s j2).any (fun j3 => boundaryAt s j3))))

/-- Model of `RegExp.test` on the heuristic pattern: a match starts somewhere. -/
def hasTime (s : Str) : Bool :=
  (List.range (s.length + 1)).any (timeMatchAt s)

/-- Numeric value of the matched `\d\x7b1,2\x7d` group. -/
def hourValAt (s : Str) (i k : Nat) : Nat :=
  digitsToNat ((s.drop i).take k)

/-- Modelled from the spec: the time-of-day pattern of section 4.4, whose
hour group must lie in the range 1-12 (the implemented regex has no such
range restriction; this definition exists to compare the two). -/
def specTimeMatchAt (s : Str) (i : Nat) : Bool :=
  boundaryAt s i &&
  (digitLens s i).any (fun k =>
    (1 ≤ hourValAt s i k && hourValAt s i k ≤ 12) &&
    (colonEnds s (i + k)).any (fun j1 =>
      (wsEnds s j1).any (fun j2 =>
        (ampmEnds s j2).any (fun j3 => boundaryAt s j3))))

/-- Modelled from the spec: `hasTime` restricted to hours 1-12. -/
def specHasTime (s : Str) : Bool :=
  (List.range (s.length + 1)).any (specTimeMatchAt s)

/-! ## Dates

Milliseconds since the Unix epoch; local time identified with UTC.
`civilFromDays` / `daysFromCivil` are the standard Gregorian conversions. -/

def msPerDay : Nat := 86400000

def civilFromDays (z0 : Nat) : Nat × Nat × Nat :=
  let z := z0 + 719468
  let era := z / 146097
  let doe := z % 146097
  let yoe := (doe - doe / 1460 + doe / 36524 - doe / 146096) / 365
  let y := yoe + era * 400
  let doy := doe - (365 * yoe + yoe / 4 - yoe / 100)
  let mp := (5 * doy + 2) / 153
  let d := doy - (153 * mp + 2) / 5 + 1
  let m := if mp < 10 then mp + 3 else mp - 9
  (if m ≤ 2 then y + 1 else y, m, d)

def daysFromCivil (y m d : Nat) : Nat :=
  let y1 := if m ≤ 2 then y - 1 else y
  let era := y1 / 400
  let yoe := y1 - era * 400
  let mp := if 2 < m then m - 3 else m + 9
  let doy := (153 * mp + 2) / 5 + d - 1
  let doe := yoe * 365 + yoe / 4 - yoe / 100 + doy
  era * 146097 + doe - 719468

def weekdayNames : List Str :=
  [strL "Sun", strL "Mon", strL "Tue", strL "Wed", strL "Thu", strL "Fri", strL "Sat"]

def monthNames : List Str :=
  [strL "Jan", strL "Feb", strL "Mar", strL "Apr", strL "May", strL "Jun",
   strL "Jul", strL "Aug", strL "Sep", strL "Oct", strL "Nov", strL "Dec"]

def pad2 (n : Nat) : Str :=
  if n < 10 then '0' :: (Nat.repr n).toList else (Nat.repr n).toList

/-- Model of `Date.prototype.toDateString`, e.g. `Fri May 10 2024`. -/
def jsToDateString (ms : Nat) : Str :=
  let days := ms / msPerDay
  let ymd := civilFromDays days
  let wd := (days + 4) % 7
  (weekdayNames.getD wd []) ++ [' '] ++ (monthNames.getD (ymd.2.1 - 1) []) ++ [' '] ++
    pad2 ymd.2.2 ++ [' '] ++ (Nat.repr ymd.1).toList

/-- JS `String.prototype.trim` (common whitespace subset). -/
def trimWs (s : Str) : Str :=
  ((s.dropWhile isJsonWs).reverse.dropWhile isJsonWs).reverse

def toLowerStr (s : Str) : Str := s.map Char.toLower

/-- Model of `new Date(raw)` on the date-extraction reply: the prompt asks
for `YYYY-MM-DD`, so only plain ISO dates are modelled; anything else is
an invalid date (`NaN`). -/
def parseDateJs (s : Str) : Option Nat :=
  match s with
  | [y1, y2, y3, y4, h1, m1, m2, h2, d1, d2] =>
    if [y1, y2, y3, y4, m1, m2, d1, d2].all Char.isDigit && h1 == '-' && h2 == '-' then
      let y := digitsToNat [y1, y2, y3, y4]
      let m := digitsToNat [m1, m2]
      let d := digitsToNat [d1, d2]
      if 1 ≤ m && m ≤ 12 && 1 ≤ d && d ≤ 31 && 1970 ≤ y then
        some (daysFromCivil y m d * msPerDay)
      else none
    else none
  | _ => none

/-! ## The data model and responses

`Entry.js` (the Mongoose schema) is not part of the extracted source; the
store is modelled as an append-only list and `Entry.create` records exactly
the fields passed at the call site (`none` = field not passed / passed as
`undefined`).  The Gemini classification call site passes the user's name
under the key `Username`, the Groq one under `username`; both are kept. -/

structure User where
  id : Nat
  name : Str

structure Entry where
  userId : Nat
  Username : Option Str := none
  username : Option Str := none
  content : Option Json := none
  summary : Option Json := none
  type : Json := Json.null
  tasks : List Json := []
  tags : List Str := []
  scheduledFor : Option Nat := none
  mood : Option Json := none
  userInput : Option Str := none

inductive Response where
  | ok (data : Entry)
  | okList (data : List Entry)
  | okDiary (diaryText : Option Json) (saved : Entry)
  | err (status : Nat)

/-! ## Temporal resolver (Gemini variant)

`extractDateFromInput`, lines 80-105.  The backend round-trip is an input:
`none` models a thrown backend error (the `catch` returns `null`);
`some raw` is the reply text.  `now` is the wall-clock moment
(`new Date()`). -/

/-- Lines 98-99: the fallback heuristic.  `some now` is the spec's
`NowFallback`, `none` its `NoDate`. -/
def fallbackHeuristic (text : Str) (now : Nat) : Option Nat :=
  if hasTime text then some now else none

def extractDateFromInput (dateReply : Option Str) (text : Str) (now : Nat) : Option Nat :=
  match dateReply with
  | none => none
  | some raw0 =>
    let raw := trimWs raw0
    if toLowerStr raw == strL "null" then fallbackHeuristic text now
    else
      match parseDateJs raw with
      | some d => some d
      | none => fallbackHeuristic text now

/-! ## Classification pipelines

`handlePrompt` of each variant, after input validation (the
express-validator / sanitize-html / ObjectId plumbing is excluded by the
spec's scope).  The classification reply is an input; `none` models a
backend error (`ModelUnavailable`).  The function returns the HTTP-level
outcome and the store after the call. -/

/-- Gemini variant, lines 28-78. -/
def geminiHandlePrompt (store : List Entry) (u : User) (input : Str)
    (classifyReply : Option Str) (dateReply : Option Str) (now : Nat) :
    Response × List Entry :=
  match classifyReply with
  | none => (Response.err 500, store)
  | some r =>
    match extractJson r with
    | none => (Response.err 500, store)
    | some parsed =>
      let scheduledDate := extractDateFromInput dateReply input now
      let entry : Entry := {
        userId := u.id
        Username := some u.name
        content := some (Json.str input)
        summary := jsGet parsed (strL "summary")
        type := jsOr (jsGet parsed (strL "type")) (Json.str (strL "note"))
        tasks := match jsGet parsed (strL "tasks") with
                 | some (Json.arr xs) => xs
                 | _ => []
        tags := []
        scheduledFor := scheduledDate }
      (Response.ok entry, store ++ [entry])

/-- Groq variant, lines 269-336.  `chrono` models `parseDate` of
chrono-node (an external library); `callGroq` parses the whole reply as
JSON with no prose tolerance (lines 259-267). -/
def groqHandlePrompt (chrono : Str → Option Nat) (store : List Entry) (u : User)
    (input : Str) (reply : Option Str) : Response × List Entry :=
  let scheduledDate := chrono input
  match reply with
  | none => (Response.err 500, store)
  | some r =>
    match Json.parse r with
    | none => (Response.err 500, store)
    | some Json.null =>
      -- `parsed.summary` on a parsed `null` throws a TypeError in JS,
      -- which the handler's catch turns into the same 500 response.
      (Response.err 500, store)
    | some parsed =>
      let entry : Entry := {
        userId := u.id
        username := some u.name
        content := some (Json.str input)
        summary := some (jsOr (jsGet parsed (strL "summary")) (Json.str []))
        type := jsOr (jsGet parsed (strL "type")) (Json.str (strL "note"))
        tasks := match jsGet parsed (strL "tasks") with
                 | some (Json.arr xs) => xs
                 | _ => []
        tags := []
        scheduledFor := scheduledDate }
      (Response.ok entry, store ++ [entry])

/-! ## Day-bucket queries

`getEntriesByDate` (lines 107-127 and 338-372) and the fetch step of the
diary pipelines all compute `setHours(0,0,0,0)` / `setHours(23,59,59,999)`
on the query date and filter on `scheduledFor: \x7b $gte: start, $lte: end \x7d,
userId`.  A document without `scheduledFor` matches no range predicate. -/

def dayBucketEntries (store : List Entry) (uid : Nat) (d : Nat) : List Entry :=
  let start := d / msPerDay * msPerDay
  let stop := start + (msPerDay - 1)
  store.filter (fun e =>
    (match e.scheduledFor with
     | some ts => decide (start ≤ ts) && decide (ts ≤ stop)
     | none => false) && (e.userId == uid))

def getEntriesByDate (store : List Entry) (uid : Nat) (dateParam : Option Nat) : Response :=
  match dateParam with
  | none => Response.err 400
  | some d => Response.okList (dayBucketEntries store uid d)

/-! ## Diary aggregation pipelines

`generateDiaryEntry` of each variant.  The result records the prompt that
was sent to the backend (`none` when the call aborts before the model
round-trip), the HTTP-level outcome, and the store after the call. -/

structure DiaryResult where
  prompt : Option Str
  resp : Response
  store : List Entry

/-- One `type: summary` bullet line per entry, `\n`-joined, with the
`"No entries."` sentinel when the join is empty (`|| "No entries."`). -/
def entrySummariesText (bullet : Str) (entries : List Entry) : Str :=
  let j := List.intercalate (strL "\n")
    (entries.map (fun e => bullet ++ jsDisplay e.type ++ strL ": " ++ jsDisplayOpt e.summary))
  if j.isEmpty then strL "No entries." else j

/-- The Gemini diary prompt, lines 156-174. -/
def geminiDiaryPrompt (date : Nat) (summaries : Str) (extraText : Option Str) : Str :=
  strL "\nYou are a diary writing assistant.\n\nDate: " ++ jsToDateString date ++
  strL "\n\nHere are the notes, tasks, and reminders saved for the day:\n" ++ summaries ++
  strL "\n\nThe user also added:\n\"" ++ jsTemplateOpt extraText ++
  strL "\"\n\nWrite a personal diary entry summarizing the day. Be reflective, warm, and concise.\nAlso extract the user\x27s overall mood from the context using one word (e.g., happy, sad, tired, excited, relaxed).\nReturn JSON like:\n\x7b\n  \"diaryText\": \"...\",\n  \"mood\": \"...\"\n\x7d\n"

/-- The Groq diary prompt, lines 410-427 (the bullet text is reproduced as
it appears in the source file). -/
def groqDiaryPrompt (date : Nat) (summaries : Str) (extraText : Option Str) : Str :=
  strL "\nYou are a diary writing assistant.\n\nDate: " ++ jsToDateString date ++
  strL "\n\nUser notes and tasks:\n" ++ summaries ++
  strL "\n\nExtra context:\n\"" ++ jsTemplateOpt extraText ++
  strL "\"\n\nReturn JSON:\n\n\x7b\n\"diaryText\":\"A short reflective diary entry\",\n\"mood\":\"one word mood\"\n\x7d\n"

/-- The Entry persisted by both diary variants (lines 180-192 / 431-447). -/
def diaryEntryOf (u : User) (date : Nat) (extraText : Option Str) (parsed : Json) : Entry :=
  { userId := u.id
    username := some u.name
    content := jsGet parsed (strL "diaryText")
    summary := jsGet parsed (strL "diaryText")
    type := Json.str (strL "diary")
    scheduledFor := some date
    tags := [strL "auto-generated", strL "diary"]
    mood := jsGet parsed (strL "mood")
    userInput := extraText }

/-- Gemini variant, lines 129-197.  `u.id = 0` models a falsy `req.user.id`
(the `if (!userid)` guard). -/
def geminiGenerateDiary (store : List Entry) (u : User) (dateParam : Option Nat)
    (extraText : Option Str) (reply : Option Str) : DiaryResult :=
  if u.id = 0 then ⟨none, Response.err 401, store⟩
  else
    match dateParam with
    | none => ⟨none, Response.err 400, store⟩
    | some date =>
      let entries := dayBucketEntries store u.id date
      let summaries := entrySummariesText (strL "• ") entries
      let prompt := geminiDiaryPrompt date summaries extraText
      match reply with
      | none => ⟨some prompt, Response.err 500, store⟩
      | some r =>
        match extractJson r with
        | none => ⟨some prompt, Response.err 500, store⟩
        | some parsed =>
          let saved := diaryEntryOf u date extraText parsed
          ⟨some prompt, Response.okDiary (jsGet parsed (strL "diaryText")) saved, store ++ [saved]⟩

/-- Groq variant, lines 374-457.  `callGroq` parses the whole reply. -/
def groqGenerateDiary (store : List Entry) (u : User) (dateParam : Option Nat)
    (extraText : Option Str) (reply : Option Str) : DiaryResult :=
  if u.id = 0 then ⟨none, Response.err 401, store⟩
  else
    match dateParam with
    | none => ⟨none, Response.err 400, store⟩
    | some date =>
      let entries := dayBucketEntries store u.id date
      let summaries := entrySummariesText (strL "â€¢ ") entries
      let prompt := groqDiaryPrompt date summaries extraText
      match reply with
      | none => ⟨some prompt, Response.err 500, store⟩
      | some r =>
        match Json.parse r with
        | none => ⟨some prompt, Response.err 500, store⟩
        | some Json.null =>
          -- `parsed.diaryText` on a parsed `null` throws in JS; caught.
          ⟨some prompt, Response.err 500, store⟩
        | some parsed =>
          let saved := diaryEntryOf u date extraText parsed
          ⟨some prompt, Response.okDiary (jsGet parsed (strL "diaryText")) saved, store ++ [saved]⟩

/-! ## Helper lemmas about the greedy span extraction -/

theorem dropWhile_append_of_pred {p : Char → Bool} {l₁ l₂ : Str}
    (h : ∀ x ∈ l₁, p x = true) :
    List.dropWhile p (l₁ ++ l₂) = List.dropWhile p l₂ := by
  induction l₁ with
  | nil => rfl
  | cons a l ih =>
    have ha : p a = true := h a (List.mem_cons_self a l)
    simp only [List.cons_append, List.dropWhile_cons, ha, if_true]
    exact ih (fun x hx => h x (List.mem_cons_of_mem a hx))

theorem dropWhile_cons_false {p : Char → Bool} {c : Char} {l : Str} (h : p c = false) :
    List.dropWhile p (c :: l) = c :: l := by
  simp [List.dropWhile_cons, h]

theorem dropWhile_head_false {p : Char → Bool} {l r : Str} {c : Char}
    (h : List.dropWhile p l = c :: r) : p c = false := by
  induction l with
  | nil => cases h
  | cons a l ih =>
    rw [List.dropWhile_cons] at h
    by_cases hpa : p a = true
    · rw [if_pos hpa] at h
      exact ih h
    · rw [if_neg hpa] at h
      injection h with h1 _
      rw [← h1]
      simpa using hpa

/-- The regex span of a reply that is a brace-delimited text surrounded by
prose with no `\x7b` before it and no `\x7d` after it is exactly that text. -/
theorem extractSpan_embedded {p1 m p2 : Str} (h1 : lbrace ∉ p1) (h2 : rbrace ∉ p2) :
    extractSpan (p1 ++ (lbrace :: (m ++ [rbrace])) ++ p2) =
      some (lbrace :: (m ++ [rbrace])) := by
  have hp1 : ∀ x ∈ p1, (!(decide (x = lbrace))) = true := by
    intro x hx
    simp [ne_of_mem_of_not_mem hx h1]
  have hp2 : ∀ x ∈ p2.reverse, (!(decide (x = rbrace))) = true := by
    intro x hx
    simp [ne_of_mem_of_not_mem (List.mem_reverse.mp hx) h2]
  have e1 : (p1 ++ (lbrace :: (m ++ [rbrace])) ++ p2).dropWhile (fun c => !(c = lbrace)) =
      lbrace :: ((m ++ [rbrace]) ++ p2) := by
    rw [List.append_assoc, dropWhile_append_of_pred hp1, List.cons_append,
      dropWhile_cons_false (by simp)]
  have e2 : (lbrace :: ((m ++ [rbrace]) ++ p2)).reverse.dropWhile (fun c => !(c = rbrace)) =
      rbrace :: (m.reverse ++ [lbrace]) := by
    have hr : (lbrace :: ((m ++ [rbrace]) ++ p2)).reverse =
        p2.reverse ++ (rbrace :: (m.reverse ++ [lbrace])) := by
      simp
    rw [hr, dropWhile_append_of_pred hp2, dropWhile_cons_false (by simp)]
  unfold extractSpan
  rw [e1, e2]
  simp

/-- The regex span is a contiguous substring of the reply and starts
with `\x7b`. -/
theorem extractSpan_parts {s t : Str} (h : extractSpan s = some t) :
    (∃ p1 p2, s = p1 ++ t ++ p2) ∧ ∃ t', t = lbrace :: t' := by
  unfold extractSpan at h
  split at h
  · cases h
  next he =>
    have ht := (Option.some.inj h).symm
    obtain ⟨tk, hsplit⟩ : ∃ tk, s.dropWhile (fun c => !(c = lbrace)) = t ++ tk := by
      refine ⟨((s.dropWhile (fun c => !(c = lbrace))).reverse.takeWhile
        (fun c => !(c = rbrace))).reverse, ?_⟩
      rw [ht]
      conv_lhs =>
        rw [← List.reverse_reverse (s.dropWhile (fun c => !(c = lbrace))),
          ← List.takeWhile_append_dropWhile (p := fun c => !(c = rbrace))
            (l := (s.dropWhile (fun c => !(c = lbrace))).reverse)]
      rw [List.reverse_append]
    refine ⟨⟨s.takeWhile (fun c => !(c = lbrace)), tk, ?_⟩, ?_⟩
    · rw [List.append_assoc, ← hsplit, List.takeWhile_append_dropWhile]
    · cases htc : t with
      | nil =>
        rw [htc] at ht
        rw [← ht] at he
        simp at he
      | cons a t' =>
        refine ⟨t', ?_⟩
        have hfalse : (fun c => !(decide (c = lbrace))) a = false :=
          dropWhile_head_false (l := s) (by rw [hsplit, htc, List.cons_append])
        have ha : a = lbrace := by simpa using hfalse
        rw [ha]

/-! ## Helper lemmas about the JSON parser -/

/-- A parsed top-level object can only come from a `\x7b` head. -/
theorem parseF_val_obj_head {n : Nat} {s r : Str} {f : List (Str × Json)}
    (h : parseF n PMode.val s = some (PRes.v (Json.obj f), r)) :
    ∃ rest, skipWs s = lbrace :: rest := by
  cases n with
  | zero => cases h
  | succ n =>
    rw [parseF] at h
    split at h
    · cases h
    next c rest hs =>
      refine ⟨rest, ?_⟩
      rw [hs]
      by_cases hc : c = lbrace
      · rw [hc]
      · exfalso
        rw [if_neg hc] at h
        repeat' split at h
        all_goals simp_all

/-- Conversely, a parse from a `\x7b` head can only yield an object. -/
theorem parseF_val_lbrace_obj {n : Nat} {s rest r : Str} {v : Json}
    (hs : skipWs s = lbrace :: rest)
    (h : parseF n PMode.val s = some (PRes.v v, r)) :
    ∃ f, v = Json.obj f := by
  cases n with
  | zero => cases h
  | succ n =>
    rw [parseF] at h
    split at h
    next hnil => rw [hs] at hnil; cases hnil
    next c rest' hsc =>
      rw [hs] at hsc
      have hc : c = lbrace := ((List.cons.inj hsc).1).symm
      rw [if_pos hc] at h
      split at h
      next fs r' _ =>
        exact ⟨fs, by injection h with h1; injection h1 with h2 _; injection h2 with h3; rw [h3]⟩
      next => cases h

/-- The parse yields an object only when the first non-whitespace
character is `\x7b`. -/
theorem parse_obj_head {t : Str} {f : List (Str × Json)}
    (h : Json.parse t = some (Json.obj f)) :
    ∃ rest, skipWs t = lbrace :: rest := by
  unfold Json.parse at h
  split at h
  next v rest heq =>
    split at h
    · exact parseF_val_obj_head (f := f) (by rw [heq, Option.some.inj h])
    · cases h
  next => cases h

/-- A reply parsing to an object contains a `\x7b`. -/
theorem parse_obj_mem {t : Str} {f : List (Str × Json)}
    (h : Json.parse t = some (Json.obj f)) : lbrace ∈ t := by
  obtain ⟨rest, hs⟩ := parse_obj_head h
  have hmem : lbrace ∈ skipWs t := by rw [hs]; exact List.mem_cons_self _ _
  exact (List.dropWhile_sublist _).subset hmem

/-- The parse of a text starting with `\x7b` yields an object if it
yields anything. -/
theorem parse_lbrace_obj {t' : Str} {v : Json}
    (h : Json.parse (lbrace :: t') = some v) : ∃ f, v = Json.obj f := by
  have hs : skipWs (lbrace :: t') = lbrace :: t' := dropWhile_cons_false (by rfl)
  unfold Json.parse at h
  split at h
  next v' rest heq =>
    split at h
    · exact (Option.some.inj h) ▸ parseF_val_lbrace_obj hs heq
    · cases h
  next => cases h

/-- If no substring of the reply parses as a JSON object, extraction fails. -/
theorem extractJson_none_of_no_obj {s : Str}
    (h : ∀ p1 t p2 f, s = p1 ++ t ++ p2 → Json.parse t ≠ some (Json.obj f)) :
    extractJson s = none := by
  unfold extractJson
  cases he : extractSpan s with
  | none => rfl
  | some t =>
    obtain ⟨⟨p1, p2, hdecomp⟩, ⟨t', ht'⟩⟩ := extractSpan_parts he
    cases hp : Json.parse t with
    | none => exact hp
    | some v =>
      obtain ⟨f, hf⟩ := parse_lbrace_obj (ht' ▸ hp)
      exact absurd (hf ▸ hp) (h p1 t p2 f hdecomp)

/-- A reply without `\x7b` has no substring parsing as a JSON object. -/
theorem no_obj_of_no_lbrace {s : Str} (hmem : lbrace ∉ s) :
    ∀ p1 t p2 f, s = p1 ++ t ++ p2 → Json.parse t ≠ some (Json.obj f) := by
  intro p1 t p2 f heq hp
  exact hmem (by
    rw [heq]
    exact List.mem_append.mpr (Or.inl (List.mem_append.mpr (Or.inr (parse_obj_mem hp)))))

/-! ## Claim C1 -/

/-- C1 (amended): for every raw backend reply consisting of a balanced
brace-delimited JSON object whose surrounding prose contains no `\x7b`
before the object and no `\x7d` after it, the regex-based extraction step
of the Gemini variant (used by both `handlePrompt` and
`generateDiaryEntry`) returns a parsed object whose fields are exactly the
fields of that embedded JSON object.  (The original claim, with arbitrary
surrounding prose, is false — see the counterexample — and the Groq
variant's `callGroq` parses the whole reply, tolerating no prose at all.) -/
theorem C1_extraction_recovers_embedded_object
    (p1 m p2 : Str) (f : List (Str × Json))
    (h1 : lbrace ∉ p1) (h2 : rbrace ∉ p2)
    (hp : Json.parse (lbrace :: (m ++ [rbrace])) = some (Json.obj f)) :
    extractJson (p1 ++ (lbrace :: (m ++ [rbrace])) ++ p2) = some (Json.obj f) := by
  have hspan := extractSpan_embedded (m := m) h1 h2
  unfold extractJson
  rw [hspan]
  exact hp

/-- C1 (counterexample): the reply `Result: \x7b"a":1\x7d ok\x7d` consists
of the single balanced JSON object `\x7b"a":1\x7d` embedded in surrounding
prose, yet the greedy extraction step returns nothing (the regex span runs
to the last `\x7d`, which does not parse), so the extraction does not
return that object's fields. -/
theorem C1_counterexample :
    strL "Result: \x7b\"a\":1\x7d ok\x7d" =
      strL "Result: " ++ strL "\x7b\"a\":1\x7d" ++ strL " ok\x7d" ∧
    Json.parse (strL "\x7b\"a\":1\x7d") = some (Json.obj [(strL "a", Json.num 1)]) ∧
    extractJson (strL "Result: \x7b\"a\":1\x7d ok\x7d") = none :=
  ⟨rfl, rfl, rfl⟩

/-- C1 (witness): the amended theorem applied to a concrete prose-wrapped
reply. -/
theorem C1_extraction_recovers_embedded_object_witness :
    lbrace ∉ strL "Sure! Here you go: " ∧ rbrace ∉ strL " Enjoy." ∧
    Json.parse (lbrace :: (strL "\"type\":\"note\"" ++ [rbrace])) =
      some (Json.obj [(strL "type", Json.str (strL "note"))]) ∧
    extractJson (strL "Sure! Here you go: " ++
        (lbrace :: (strL "\"type\":\"note\"" ++ [rbrace])) ++ strL " Enjoy.") =
      some (Json.obj [(strL "type", Json.str (strL "note"))]) :=
  ⟨by decide, by decide, rfl,
    C1_extraction_recovers_embedded_object _ _ _ _ (by decide) (by decide) rfl⟩

/-! ## Claim C2 -/

/-- A user fixture shared by the concrete runs below. -/
def demoUser : User := ⟨1, strL "alice"⟩

/-- C2 (amended): for every parsed structured object from a classification
reply, a missing or falsy `type` is replaced by `"note"` and a missing or
non-array `tasks` by the empty sequence in both variants; a missing
`summary` is replaced by the empty string only in the Groq variant, while
the Gemini variant passes it through unchanged, leaving the persisted
`summary` absent rather than empty. -/
theorem C2_defaults_applied
    (store : List Entry) (u : User) (input r : Str) (fs : List (Str × Json))
    (dateReply : Option Str) (now : Nat) (chrono : Str → Option Nat)
    (hgem : extractJson r = some (Json.obj fs))
    (hgroq : Json.parse r = some (Json.obj fs))
    (hty : jsFalsyOpt (jsGet (Json.obj fs) (strL "type")) = true)
    (htasks : ∀ xs, jsGet (Json.obj fs) (strL "tasks") ≠ some (Json.arr xs))
    (hsum : jsGet (Json.obj fs) (strL "summary") = none) :
    ∃ e1 e2,
      geminiHandlePrompt store u input (some r) dateReply now = (Response.ok e1, store ++ [e1]) ∧
      groqHandlePrompt chrono store u input (some r) = (Response.ok e2, store ++ [e2]) ∧
      e1.type = Json.str (strL "note") ∧ e2.type = Json.str (strL "note") ∧
      e1.tasks = [] ∧ e2.tasks = [] ∧
      e1.summary = none ∧ e2.summary = some (Json.str []) := by
  have hnote : jsOr (jsGet (Json.obj fs) (strL "type")) (Json.str (strL "note")) =
      Json.str (strL "note") := by
    unfold jsOr
    cases hg : jsGet (Json.obj fs) (strL "type") with
    | none => rfl
    | some v =>
      rw [hg] at hty
      unfold jsFalsyOpt at hty
      simp only [Bool.not_eq_true'] at hty
      simp [hty]
  simp only [geminiHandlePrompt, groqHandlePrompt, hgem, hgroq]
  refine ⟨_, _, rfl, rfl, ?_, ?_, ?_, ?_, ?_, ?_⟩
  · exact hnote
  · exact hnote
  · cases hg : jsGet (Json.obj fs) (strL "tasks") with
    | none => simp [hg]
    | some v =>
      cases v with
      | arr xs => exact absurd hg (htasks xs)
      | null => simp [hg]
      | bool b => simp [hg]
      | num n => simp [hg]
      | str s => simp [hg]
      | obj fs => simp [hg]
  · cases hg : jsGet (Json.obj fs) (strL "tasks") with
    | none => simp [hg]
    | some v =>
      cases v with
      | arr xs => exact absurd hg (htasks xs)
      | null => simp [hg]
      | bool b => simp [hg]
      | num n => simp [hg]
      | str s => simp [hg]
      | obj fs => simp [hg]
  · exact hsum
  · rw [hsum]
    rfl

/-- C2 (counterexample): a classification reply whose object lacks
`summary`, run through the Gemini variant, persists an Entry whose
`summary` field is absent — not the empty string the claim requires. -/
theorem C2_counterexample :
    extractJson (strL "\x7b\"type\":\"note\"\x7d") =
      some (Json.obj [(strL "type", Json.str (strL "note"))]) ∧
    jsGet (Json.obj [(strL "type", Json.str (strL "note"))]) (strL "summary") = none ∧
    ((geminiHandlePrompt [] demoUser (strL "hi") (some (strL "\x7b\"type\":\"note\"\x7d"))
      (some (strL "null")) 0).snd.map Entry.summary) = [none] ∧
    ([(none : Option Json)] ≠ [some (Json.str [])]) :=
  ⟨rfl, rfl, rfl, by simp⟩

/-- C2 (witness): the amended theorem applied to the empty-object reply. -/
theorem C2_defaults_applied_witness :
    extractJson (strL "\x7b\x7d") = some (Json.obj []) ∧
    Json.parse (strL "\x7b\x7d") = some (Json.obj []) ∧
    (∃ e1 e2,
      geminiHandlePrompt [] demoUser (strL "hi") (some (strL "\x7b\x7d"))
        (some (strL "null")) 0 = (Response.ok e1, [] ++ [e1]) ∧
      groqHandlePrompt (fun _ => none) [] demoUser (strL "hi") (some (strL "\x7b\x7d")) =
        (Response.ok e2, [] ++ [e2]) ∧
      e1.type = Json.str (strL "note") ∧ e2.type = Json.str (strL "note") ∧
      e1.tasks = [] ∧ e2.tasks = [] ∧
      e1.summary = none ∧ e2.summary = some (Json.str [])) :=
  ⟨rfl, rfl,
    C2_defaults_applied [] demoUser (strL "hi") (strL "\x7b\x7d") []
      (some (strL "null")) 0 (fun _ => none) rfl rfl (by decide)
      (fun xs h => Option.noConfusion h) rfl⟩

/-! ## Claim C3 -/

/-- C3 (amended): the temporal resolver's fallback heuristic returns
NowFallback (the current wall-clock moment) if and only if the text
matches the implemented time-of-day regex — which accepts any one- or
two-digit number at word boundaries (0-99, not only hours 1-12), with
optional `:minutes` and an optional am/pm marker — and NoDate otherwise.
(The original claim's restriction of the hour to the range 1-12 is not in
the code; see the counterexample.) -/
theorem C3_fallback_iff_time_pattern (text : Str) (now : Nat) :
    (fallbackHeuristic text now = some now ↔
      ∃ i, i ≤ text.length ∧ timeMatchAt text i = true) ∧
    (fallbackHeuristic text now = none ↔
      ¬∃ i, i ≤ text.length ∧ timeMatchAt text i = true) := by
  have hiff : hasTime text = true ↔ ∃ i, i ≤ text.length ∧ timeMatchAt text i = true := by
    unfold hasTime
    rw [List.any_eq_true]
    constructor
    · rintro ⟨i, hmem, hp⟩
      exact ⟨i, Nat.lt_succ_iff.mp (List.mem_range.mp hmem), hp⟩
    · rintro ⟨i, hle, hp⟩
      exact ⟨i, List.mem_range.mpr (Nat.lt_succ_iff.mpr hle), hp⟩
  unfold fallbackHeuristic
  by_cases h : hasTime text = true
  · rw [if_pos h]
    constructor
    · exact ⟨fun _ => hiff.mp h, fun _ => rfl⟩
    · constructor
      · intro hc
        cases hc
      · intro hc
        exact absurd (hiff.mp h) hc
  · rw [if_neg h]
    constructor
    · constructor
      · intro hc
        cases hc
      · intro hex
        exact absurd (hiff.mpr hex) h
    · exact ⟨fun _ hex => absurd (hiff.mpr hex) h, fun _ => rfl⟩

/-- C3 (counterexample): the text `in 42 minutes` contains no time-of-day
pattern with an hour in the range 1-12 (per the spec's pattern), yet the
fallback heuristic returns NowFallback, because the implemented regex
accepts any one- or two-digit number. -/
theorem C3_counterexample :
    fallbackHeuristic (strL "in 42 minutes") 7 = some 7 ∧
    specHasTime (strL "in 42 minutes") = false :=
  ⟨rfl, rfl⟩

/-! ## Claim C4 -/

/-- C4 (amended): the two provider implementations are not observably
equivalent in general (see the counterexample: they differ on the
`summary` default, on the key under which the user's name is stored, and
in their date-resolution strategies).  They do agree on all persisted
fields except the name field whenever the classification reply parses in
both variants to the same object, that object carries a string `summary`,
and the two date-resolution strategies resolve the input identically. -/
theorem C4_provider_core_agreement
    (store : List Entry) (u : User) (input r : Str) (fs : List (Str × Json)) (sv : Str)
    (dateReply : Option Str) (now : Nat) (chrono : Str → Option Nat)
    (hgem : extractJson r = some (Json.obj fs))
    (hgroq : Json.parse r = some (Json.obj fs))
    (hsum : jsGet (Json.obj fs) (strL "summary") = some (Json.str sv))
    (hdate : extractDateFromInput dateReply input now = chrono input) :
    ∃ e1 e2,
      geminiHandlePrompt store u input (some r) dateReply now = (Response.ok e1, store ++ [e1]) ∧
      groqHandlePrompt chrono store u input (some r) = (Response.ok e2, store ++ [e2]) ∧
      e1.userId = e2.userId ∧ e1.content = e2.content ∧ e1.summary = e2.summary ∧
      e1.type = e2.type ∧ e1.tasks = e2.tasks ∧ e1.tags = e2.tags ∧
      e1.scheduledFor = e2.scheduledFor ∧ e1.mood = e2.mood ∧ e1.userInput = e2.userInput := by
  have hs : jsOr (jsGet (Json.obj fs) (strL "summary")) (Json.str []) = Json.str sv := by
    rw [hsum]
    unfold jsOr
    cases sv with
    | nil => simp [jsTruthy]
    | cons a l => simp [jsTruthy]
  simp only [geminiHandlePrompt, groqHandlePrompt, hgem, hgroq]
  refine ⟨_, _, rfl, rfl, rfl, rfl, ?_, rfl, rfl, rfl, ?_, rfl, rfl⟩
  · rw [hs, hsum]
  · exact hdate

/-- C4 (counterexample): fed the same fixed classification reply (a pure
JSON object with no `summary` field) and the same input, the two variants
persist different Entries: the Gemini one leaves `summary` absent, the
Groq one stores the empty string. -/
theorem C4_counterexample :
    ((geminiHandlePrompt [] demoUser (strL "hello")
        (some (strL "\x7b\"type\":\"note\",\"tasks\":[]\x7d"))
        (some (strL "null")) 0).snd.map Entry.summary = [none]) ∧
    ((groqHandlePrompt (fun _ => none) [] demoUser (strL "hello")
        (some (strL "\x7b\"type\":\"note\",\"tasks\":[]\x7d"))).snd.map Entry.summary =
      [some (Json.str [])]) ∧
    ((none : Option Json) ≠ some (Json.str [])) :=
  ⟨rfl, rfl, by simp⟩

/-- C4 (witness): the agreement theorem applied to a concrete reply that
satisfies its side conditions. -/
theorem C4_provider_core_agreement_witness :
    extractJson (strL "\x7b\"summary\":\"fine\"\x7d") =
      some (Json.obj [(strL "summary", Json.str (strL "fine"))]) ∧
    Json.parse (strL "\x7b\"summary\":\"fine\"\x7d") =
      some (Json.obj [(strL "summary", Json.str (strL "fine"))]) ∧
    jsGet (Json.obj [(strL "summary", Json.str (strL "fine"))]) (strL "summary") =
      some (Json.str (strL "fine")) ∧
    extractDateFromInput (some (strL "null")) (strL "hello") 0 =
      (fun (_ : Str) => (none : Option Nat)) (strL "hello") ∧
    (∃ e1 e2,
      geminiHandlePrompt [] demoUser (strL "hello")
        (some (strL "\x7b\"summary\":\"fine\"\x7d")) (some (strL "null")) 0 =
        (Response.ok e1, [] ++ [e1]) ∧
      groqHandlePrompt (fun _ => none) [] demoUser (strL "hello")
        (some (strL "\x7b\"summary\":\"fine\"\x7d")) = (Response.ok e2, [] ++ [e2]) ∧
      e1.userId = e2.userId ∧ e1.content = e2.content ∧ e1.summary = e2.summary ∧
      e1.type = e2.type ∧ e1.tasks = e2.tasks ∧ e1.tags = e2.tags ∧
      e1.scheduledFor = e2.scheduledFor ∧ e1.mood = e2.mood ∧ e1.userInput = e2.userInput) :=
  ⟨rfl, rfl, rfl, rfl,
    C4_provider_core_agreement [] demoUser (strL "hello") (strL "\x7b\"summary\":\"fine\"\x7d")
      [(strL "summary", Json.str (strL "fine"))] (strL "fine")
      (some (strL "null")) 0 (fun _ => none) rfl rfl rfl rfl⟩

/-! ## Claim C5 -/

/-- An entry fixture for the concrete runs below. -/
def demoEntry : Entry := { userId := 1 }

/-- C5 (confirmed): for every classification call in which the backend is
unavailable (`none` reply) or its reply yields no parseable structured
object, both variants abort with the processing-failure response (500),
no Entry is persisted, and the store is returned unchanged. -/
theorem C5_failure_aborts_without_persisting
    (store : List Entry) (u : User) (input r : Str) (dateReply : Option Str)
    (now : Nat) (chrono : Str → Option Nat) :
    geminiHandlePrompt store u input none dateReply now = (Response.err 500, store) ∧
    (extractJson r = none →
      geminiHandlePrompt store u input (some r) dateReply now = (Response.err 500, store)) ∧
    groqHandlePrompt chrono store u input none = (Response.err 500, store) ∧
    (Json.parse r = none →
      groqHandlePrompt chrono store u input (some r) = (Response.err 500, store)) ∧
    (Json.parse r = some Json.null →
      groqHandlePrompt chrono store u input (some r) = (Response.err 500, store)) := by
  refine ⟨rfl, fun h => ?_, rfl, fun h => ?_, fun h => ?_⟩
  · simp only [geminiHandlePrompt, h]
  · simp only [groqHandlePrompt, h]
  · simp only [groqHandlePrompt, h]

/-- C5 (witness): both failure modes on both variants, run on a concrete
nonempty store, leave it unchanged. -/
theorem C5_failure_aborts_without_persisting_witness :
    extractJson (strL "no structured output") = none ∧
    Json.parse (strL "no structured output") = none ∧
    geminiHandlePrompt [demoEntry] demoUser (strL "hi") none (some (strL "null")) 0 =
      (Response.err 500, [demoEntry]) ∧
    geminiHandlePrompt [demoEntry] demoUser (strL "hi")
      (some (strL "no structured output")) (some (strL "null")) 0 =
      (Response.err 500, [demoEntry]) ∧
    groqHandlePrompt (fun _ => none) [demoEntry] demoUser (strL "hi") none =
      (Response.err 500, [demoEntry]) ∧
    groqHandlePrompt (fun _ => none) [demoEntry] demoUser (strL "hi")
      (some (strL "no structured output")) = (Response.err 500, [demoEntry]) ∧
    Json.parse (strL "null") = some Json.null ∧
    groqHandlePrompt (fun _ => none) [demoEntry] demoUser (strL "hi")
      (some (strL "null")) = (Response.err 500, [demoEntry]) :=
  ⟨rfl, rfl,
    (C5_failure_aborts_without_persisting [demoEntry] demoUser (strL "hi")
      (strL "no structured output") (some (strL "null")) 0 (fun _ => none)).1,
    (C5_failure_aborts_without_persisting [demoEntry] demoUser (strL "hi")
      (strL "no structured output") (some (strL "null")) 0 (fun _ => none)).2.1 rfl,
    (C5_failure_aborts_without_persisting [demoEntry] demoUser (strL "hi")
      (strL "no structured output") (some (strL "null")) 0 (fun _ => none)).2.2.1,
    (C5_failure_aborts_without_persisting [demoEntry] demoUser (strL "hi")
      (strL "no structured output") (some (strL "null")) 0 (fun _ => none)).2.2.2.1 rfl,
    rfl,
    (C5_failure_aborts_without_persisting [demoEntry] demoUser (strL "hi")
      (strL "null") (some (strL "null")) 0 (fun _ => none)).2.2.2.2 rfl⟩

/-! ## Claim C6 -/

/-- C6 (confirmed): for every backend reply in which no substring parses
as a JSON object (no balanced JSON object), the Gemini extraction step
ends in the handled failure branch: the call returns the
processing-failure response and the store is unchanged.  The embedded
pipeline is a total function, so no unhandled fault is possible; in the
source, the `null` regex match makes `jsonMatch[0]` throw, which the
surrounding `try`/`catch` turns into the same 500 response. -/
theorem C6_no_object_reply_is_handled_failure
    (store : List Entry) (u : User) (input r : Str) (dateReply : Option Str) (now : Nat)
    (hno : ∀ p1 t p2 f, r = p1 ++ t ++ p2 → Json.parse t ≠ some (Json.obj f)) :
    geminiHandlePrompt store u input (some r) dateReply now = (Response.err 500, store) := by
  have hex : extractJson r = none := extractJson_none_of_no_obj hno
  simp only [geminiHandlePrompt, hex]

/-- C6 (witness): a concrete brace-free reply (hence with no balanced
JSON object anywhere) yields the handled failure. -/
theorem C6_no_object_reply_is_handled_failure_witness :
    lbrace ∉ strL "I cannot produce structured output." ∧
    geminiHandlePrompt [demoEntry] demoUser (strL "hi")
      (some (strL "I cannot produce structured output.")) (some (strL "null")) 0 =
      (Response.err 500, [demoEntry]) :=
  ⟨by decide,
    C6_no_object_reply_is_handled_failure [demoEntry] demoUser (strL "hi")
      (strL "I cannot produce structured output.") (some (strL "null")) 0
      (no_obj_of_no_lbrace (by decide))⟩

/-! ## Claim C7 -/

/-- C7 (confirmed): when the model-assisted date-extraction round-trip
fails with a backend error (the `catch` branch of `extractDateFromInput`),
the failure does not propagate: the resolver returns NoDate and the parent
classification call still succeeds, persisting an Entry with no
`scheduledFor`. -/
theorem C7_date_failure_degrades_to_nodate
    (store : List Entry) (u : User) (input r : Str) (parsed : Json) (now : Nat)
    (hgem : extractJson r = some parsed) :
    extractDateFromInput none input now = none ∧
    ∃ e, geminiHandlePrompt store u input (some r) none now = (Response.ok e, store ++ [e]) ∧
      e.scheduledFor = none := by
  refine ⟨rfl, ?_⟩
  simp only [geminiHandlePrompt, hgem]
  exact ⟨_, rfl, rfl⟩

/-- C7 (witness): a concrete classification reply with an erroring date
backend still persists successfully. -/
theorem C7_date_failure_degrades_to_nodate_witness :
    extractJson (strL "\x7b\"type\":\"task\"\x7d") =
      some (Json.obj [(strL "type", Json.str (strL "task"))]) ∧
    (extractDateFromInput none (strL "buy milk at 5pm") 0 = none ∧
     ∃ e, geminiHandlePrompt [] demoUser (strL "buy milk at 5pm")
        (some (strL "\x7b\"type\":\"task\"\x7d")) none 0 = (Response.ok e, [] ++ [e]) ∧
      e.scheduledFor = none) :=
  ⟨rfl,
    C7_date_failure_degrades_to_nodate [] demoUser (strL "buy milk at 5pm")
      (strL "\x7b\"type\":\"task\"\x7d") (Json.obj [(strL "type", Json.str (strL "task"))]) 0 rfl⟩

/-! ## Claim C8 -/

/-- C8 (confirmed): an Entry whose `scheduledFor` timestamp lies inside
calendar day `day` is returned by the date-range query exactly when the
queried day equals `day` and the Entry belongs to the querying user: the
day bucket spans `[00:00:00.000, 23:59:59.999]` of the queried day. -/
theorem C8_day_bucket_membership
    (store : List Entry) (uid : Nat) (e : Entry) (day frac q : Nat)
    (he : e ∈ store) (hsf : e.scheduledFor = some (day * msPerDay + frac))
    (hfrac : frac < msPerDay) :
    getEntriesByDate store uid (some (q * msPerDay)) =
      Response.okList (dayBucketEntries store uid (q * msPerDay)) ∧
    (e ∈ dayBucketEntries store uid (q * msPerDay) ↔ (e.userId = uid ∧ q = day)) := by
  refine ⟨rfl, ?_⟩
  unfold dayBucketEntries
  rw [List.mem_filter]
  constructor
  · rintro ⟨-, hp⟩
    rw [hsf] at hp
    simp only [Bool.and_eq_true, decide_eq_true_eq, beq_iff_eq] at hp
    obtain ⟨⟨h1, h2⟩, h3⟩ := hp
    refine ⟨h3, ?_⟩
    simp only [msPerDay] at h1 h2 hfrac ⊢
    omega
  · rintro ⟨hu, rfl⟩
    refine ⟨he, ?_⟩
    rw [hsf]
    simp only [Bool.and_eq_true, decide_eq_true_eq, beq_iff_eq]
    refine ⟨⟨?_, ?_⟩, hu⟩ <;> (simp only [msPerDay] at hfrac ⊢; omega)

/-- The Entry fixture for C8: scheduled at 14:00 of epoch day 19853
(2024-05-10). -/
def c8Entry : Entry := { userId := 1, scheduledFor := some (19853 * msPerDay + 50400000) }

/-- C8 (witness): the theorem at the matching day 19853 (2024-05-10,
returned) and at the neighbouring day 19854 (not returned). -/
theorem C8_day_bucket_membership_witness :
    c8Entry ∈ [c8Entry] ∧
    c8Entry.scheduledFor = some (19853 * msPerDay + 50400000) ∧
    50400000 < msPerDay ∧
    (getEntriesByDate [c8Entry] 1 (some (19853 * msPerDay)) =
        Response.okList (dayBucketEntries [c8Entry] 1 (19853 * msPerDay)) ∧
      (c8Entry ∈ dayBucketEntries [c8Entry] 1 (19853 * msPerDay) ↔
        (c8Entry.userId = 1 ∧ 19853 = 19853))) ∧
    (getEntriesByDate [c8Entry] 1 (some (19854 * msPerDay)) =
        Response.okList (dayBucketEntries [c8Entry] 1 (19854 * msPerDay)) ∧
      (c8Entry ∈ dayBucketEntries [c8Entry] 1 (19854 * msPerDay) ↔
        (c8Entry.userId = 1 ∧ 19854 = 19853))) :=
  ⟨List.mem_cons_self _ _, rfl, by norm_num [msPerDay],
    C8_day_bucket_membership [c8Entry] 1 c8Entry 19853 50400000 19853
      (List.mem_cons_self _ _) rfl (by norm_num [msPerDay]),
    C8_day_bucket_membership [c8Entry] 1 c8Entry 19853 50400000 19854
      (List.mem_cons_self _ _) rfl (by norm_num [msPerDay])⟩

/-! ## Claim C9 -/

/-- C9 (confirmed): every successful diary-synthesis call (in either
variant) persists an Entry with `type = "diary"`, `content` and `summary`
both equal to the extracted `diaryText`, `tags = ["auto-generated",
"diary"]`, `scheduledFor` equal to the requested date, `mood` equal to the
extracted mood and `userInput` equal to the supplementary text, and the
response carries both the narrative text and the persisted record. -/
theorem C9_diary_persisted_fields
    (store : List Entry) (u : User) (d : Nat) (extra : Option Str) (r : Str) (fs : List (Str × Json))
    (hid : ¬u.id = 0)
    (hgem : extractJson r = some (Json.obj fs))
    (hgroq : Json.parse r = some (Json.obj fs)) :
    (∃ e, (geminiGenerateDiary store u (some d) extra (some r)).resp =
        Response.okDiary (jsGet (Json.obj fs) (strL "diaryText")) e ∧
      (geminiGenerateDiary store u (some d) extra (some r)).store = store ++ [e] ∧
      e.type = Json.str (strL "diary") ∧
      e.content = jsGet (Json.obj fs) (strL "diaryText") ∧
      e.summary = jsGet (Json.obj fs) (strL "diaryText") ∧
      e.tags = [strL "auto-generated", strL "diary"] ∧
      e.scheduledFor = some d ∧
      e.mood = jsGet (Json.obj fs) (strL "mood") ∧
      e.userInput = extra) ∧
    (∃ e, (groqGenerateDiary store u (some d) extra (some r)).resp =
        Response.okDiary (jsGet (Json.obj fs) (strL "diaryText")) e ∧
      (groqGenerateDiary store u (some d) extra (some r)).store = store ++ [e] ∧
      e.type = Json.str (strL "diary") ∧
      e.content = jsGet (Json.obj fs) (strL "diaryText") ∧
      e.summary = jsGet (Json.obj fs) (strL "diaryText") ∧
      e.tags = [strL "auto-generated", strL "diary"] ∧
      e.scheduledFor = some d ∧
      e.mood = jsGet (Json.obj fs) (strL "mood") ∧
      e.userInput = extra) := by
  constructor
  · simp only [geminiGenerateDiary, if_neg hid, hgem]
    exact ⟨_, rfl, rfl, rfl, rfl, rfl, rfl, rfl, rfl, rfl⟩
  · simp only [groqGenerateDiary, if_neg hid, hgroq]
    exact ⟨_, rfl, rfl, rfl, rfl, rfl, rfl, rfl, rfl, rfl⟩

/-- C9 (witness): a concrete successful diary synthesis. -/
theorem C9_diary_persisted_fields_witness :
    ¬demoUser.id = 0 ∧
    extractJson (strL "\x7b\"diaryText\":\"nice day\",\"mood\":\"happy\"\x7d") =
      some (Json.obj [(strL "diaryText", Json.str (strL "nice day")),
        (strL "mood", Json.str (strL "happy"))]) ∧
    ((∃ e, (geminiGenerateDiary [] demoUser (some (19853 * msPerDay)) (some (strL "walked"))
        (some (strL "\x7b\"diaryText\":\"nice day\",\"mood\":\"happy\"\x7d"))).resp =
        Response.okDiary (jsGet (Json.obj [(strL "diaryText", Json.str (strL "nice day")),
          (strL "mood", Json.str (strL "happy"))]) (strL "diaryText")) e ∧
      (geminiGenerateDiary [] demoUser (some (19853 * msPerDay)) (some (strL "walked"))
        (some (strL "\x7b\"diaryText\":\"nice day\",\"mood\":\"happy\"\x7d"))).store = [] ++ [e] ∧
      e.type = Json.str (strL "diary") ∧
      e.content = jsGet (Json.obj [(strL "diaryText", Json.str (strL "nice day")),
        (strL "mood", Json.str (strL "happy"))]) (strL "diaryText") ∧
      e.summary = jsGet (Json.obj [(strL "diaryText", Json.str (strL "nice day")),
        (strL "mood", Json.str (strL "happy"))]) (strL "diaryText") ∧
      e.tags = [strL "auto-generated", strL "diary"] ∧
      e.scheduledFor = some (19853 * msPerDay) ∧
      e.mood = jsGet (Json.obj [(strL "diaryText", Json.str (strL "nice day")),
        (strL "mood", Json.str (strL "happy"))]) (strL "mood") ∧
      e.userInput = some (strL "walked")) ∧
    (∃ e, (groqGenerateDiary [] demoUser (some (19853 * msPerDay)) (some (strL "walked"))
        (some (strL "\x7b\"diaryText\":\"nice day\",\"mood\":\"happy\"\x7d"))).resp =
        Response.okDiary (jsGet (Json.obj [(strL "diaryText", Json.str (strL "nice day")),
          (strL "mood", Json.str (strL "happy"))]) (strL "diaryText")) e ∧
      (groqGenerateDiary [] demoUser (some (19853 * msPerDay)) (some (strL "walked"))
        (some (strL "\x7b\"diaryText\":\"nice day\",\"mood\":\"happy\"\x7d"))).store = [] ++ [e] ∧
      e.type = Json.str (strL "diary") ∧
      e.content = jsGet (Json.obj [(strL "diaryText", Json.str (strL "nice day")),
        (strL "mood", Json.str (strL "happy"))]) (strL "diaryText") ∧
      e.summary = jsGet (Json.obj [(strL "diaryText", Json.str (strL "nice day")),
        (strL "mood", Json.str (strL "happy"))]) (strL "diaryText") ∧
      e.tags = [strL "auto-generated", strL "diary"] ∧
      e.scheduledFor = some (19853 * msPerDay) ∧
      e.mood = jsGet (Json.obj [(strL "diaryText", Json.str (strL "nice day")),
        (strL "mood", Json.str (strL "happy"))]) (strL "mood") ∧
      e.userInput = some (strL "walked"))) :=
  ⟨by decide, rfl,
    C9_diary_persisted_fields [] demoUser (19853 * msPerDay) (some (strL "walked"))
      (strL "\x7b\"diaryText\":\"nice day\",\"mood\":\"happy\"\x7d")
      [(strL "diaryText", Json.str (strL "nice day")),
        (strL "mood", Json.str (strL "happy"))] (by decide) rfl rfl⟩

/-! ## Claim C10 -/

/-- C10 (confirmed): a diary-synthesis request with no supplementary text
is not rejected or skipped: the synthesis prompt embeds the JavaScript
text `undefined` where the user's extra text would go (it equals the
prompt built from the literal string "undefined"), and the persisted
Entry's `userInput` field is absent rather than an empty string. -/
theorem C10_missing_extra_text_embeds_undefined
    (store : List Entry) (u : User) (d : Nat) (r : Str) (fs : List (Str × Json))
    (hid : ¬u.id = 0)
    (hgem : extractJson r = some (Json.obj fs))
    (hgroq : Json.parse r = some (Json.obj fs)) :
    (geminiGenerateDiary store u (some d) none (some r)).prompt =
      (geminiGenerateDiary store u (some d) (some (strL "undefined")) (some r)).prompt ∧
    (groqGenerateDiary store u (some d) none (some r)).prompt =
      (groqGenerateDiary store u (some d) (some (strL "undefined")) (some r)).prompt ∧
    (∃ e, (geminiGenerateDiary store u (some d) none (some r)).resp =
        Response.okDiary (jsGet (Json.obj fs) (strL "diaryText")) e ∧
      (geminiGenerateDiary store u (some d) none (some r)).store = store ++ [e] ∧
      e.userInput = none) ∧
    (∃ e, (groqGenerateDiary store u (some d) none (some r)).resp =
        Response.okDiary (jsGet (Json.obj fs) (strL "diaryText")) e ∧
      (groqGenerateDiary store u (some d) none (some r)).store = store ++ [e] ∧
      e.userInput = none) := by
  refine ⟨?_, ?_, ?_, ?_⟩
  · simp only [geminiGenerateDiary, if_neg hid, hgem, geminiDiaryPrompt, jsTemplateOpt]
  · simp only [groqGenerateDiary, if_neg hid, hgroq, groqDiaryPrompt, jsTemplateOpt]
  · simp only [geminiGenerateDiary, if_neg hid, hgem]
    exact ⟨_, rfl, rfl, rfl⟩
  · simp only [groqGenerateDiary, if_neg hid, hgroq]
    exact ⟨_, rfl, rfl, rfl⟩

/-- C10 (witness): a concrete diary synthesis with absent extra text. -/
theorem C10_missing_extra_text_embeds_undefined_witness :
    ¬demoUser.id = 0 ∧
    extractJson (strL "\x7b\"diaryText\":\"ok\",\"mood\":\"calm\"\x7d") =
      some (Json.obj [(strL "diaryText", Json.str (strL "ok")),
        (strL "mood", Json.str (strL "calm"))]) ∧
    ((geminiGenerateDiary [] demoUser (some (19853 * msPerDay)) none
        (some (strL "\x7b\"diaryText\":\"ok\",\"mood\":\"calm\"\x7d"))).prompt =
      (geminiGenerateDiary [] demoUser (some (19853 * msPerDay)) (some (strL "undefined"))
        (some (strL "\x7b\"diaryText\":\"ok\",\"mood\":\"calm\"\x7d"))).prompt ∧
    (groqGenerateDiary [] demoUser (some (19853 * msPerDay)) none
        (some (strL "\x7b\"diaryText\":\"ok\",\"mood\":\"calm\"\x7d"))).prompt =
      (groqGenerateDiary [] demoUser (some (19853 * msPerDay)) (some (strL "undefined"))
        (some (strL "\x7b\"diaryText\":\"ok\",\"mood\":\"calm\"\x7d"))).prompt ∧
    (∃ e, (geminiGenerateDiary [] demoUser (some (19853 * msPerDay)) none
        (some (strL "\x7b\"diaryText\":\"ok\",\"mood\":\"calm\"\x7d"))).resp =
        Response.okDiary (jsGet (Json.obj [(strL "diaryText", Json.str (strL "ok")),
          (strL "mood", Json.str (strL "calm"))]) (strL "diaryText")) e ∧
      (geminiGenerateDiary [] demoUser (some (19853 * msPerDay)) none
        (some (strL "\x7b\"diaryText\":\"ok\",\"mood\":\"calm\"\x7d"))).store = [] ++ [e] ∧
      e.userInput = none) ∧
    (∃ e, (groqGenerateDiary [] demoUser (some (19853 * msPerDay)) none
        (some (strL "\x7b\"diaryText\":\"ok\",\"mood\":\"calm\"\x7d"))).resp =
        Response.okDiary (jsGet (Json.obj [(strL "diaryText", Json.str (strL "ok")),
          (strL "mood", Json.str (strL "calm"))]) (strL "diaryText")) e ∧
      (groqGenerateDiary [] demoUser (some (19853 * msPerDay)) none
        (some (strL "\x7b\"diaryText\":\"ok\",\"mood\":\"calm\"\x7d"))).store = [] ++ [e] ∧
      e.userInput = none)) :=
  ⟨by decide, rfl,
    C10_missing_extra_text_embeds_undefined [] demoUser (19853 * msPerDay)
      (strL "\x7b\"diaryText\":\"ok\",\"mood\":\"calm\"\x7d")
      [(strL "diaryText", Json.str (strL "ok")),
        (strL "mood", Json.str (strL "calm"))] (by decide) rfl rfl⟩
